import Mathlib

/-!
Verification of the version-reconciliation engine (`checkForChanges` in
`main.go`) and the release ledger (`pkg/releases/releases.go`) of the
`speakeasy-sdk-generation-action` repository, via a shallow embedding of
the Go sources in Lean.
-/

set_option maxHeartbeats 1000000
set_option maxRecDepth 100000

namespace SDKGen

/-! ## Semantic-version utilities -/

/-- Maximal leading run of decimal digits of a character list, together
with the remainder. -/
def digitRun : List Char → List Char × List Char
  | [] => ([], [])
  | c :: rest =>
    if c.isDigit then
      let p := digitRun rest
      (c :: p.1, p.2)
    else ([], c :: rest)

/-- Numeric value of a list of decimal digit characters. -/
def digitsVal (cs : List Char) : Nat :=
  cs.foldl (fun n c => n * 10 + (c.toNat - 48)) 0

/-- Modelled from the spec: the semantic-version parsing of the shared
version utilities (the `go-version` dependency, whose code is not among
the sources).  Per the spec's glossary a semantic version is a
`major.minor.patch` triple of decimal numbers; a string of any other
shape fails to parse. -/
def parseSemver (s : String) : Option (Nat × Nat × Nat) :=
  let p1 := digitRun s.toList
  if p1.1.isEmpty then none else
  match p1.2 with
  | '.' :: r2 =>
    let p2 := digitRun r2
    if p2.1.isEmpty then none else
    match p2.2 with
    | '.' :: r4 =>
      let p3 := digitRun r4
      if p3.1.isEmpty || !p3.2.isEmpty then none
      else some (digitsVal p1.1, digitsVal p2.1, digitsVal p3.1)
    | _ => none
  | _ => none

/-! ## The version reconciler (`checkForChanges`, `main.go`) -/

/-- The three fields of the per-language management config read by
`checkForChanges`: `mgmtConfig["speakeasy-version"]`,
`mgmtConfig["openapi-version"]` and `mgmtConfig["openapi-checksum"]`
(a Go map lookup of a missing key yields `""`, so three string fields
model the map faithfully). -/
structure MgmtConfig where
  speakeasyVersion : String
  openapiVersion : String
  openapiChecksum : String

/-- The shared segment comparison of `checkForChanges` (`main.go`
lines 222-231 and 247-259): the first strictly increased segment,
most significant first, selects the bump; the result is the
`(bumpMajor, bumpMinor, bumpPatch)` contribution. -/
def segmentBumps (cur prev : Nat × Nat × Nat) : Bool × Bool × Bool :=
  if cur.1 > prev.1 then (true, false, false)
  else if cur.2.1 > prev.2.1 then (false, true, false)
  else if cur.2.2 > prev.2.2 then (false, false, true)
  else (false, false, false)

/-- The tool-version signal of `checkForChanges` (`main.go` lines
209-232): empty previous tool version recommends Minor; otherwise both
versions must parse (previous first, then current, each a fatal error on
failure) and the segments are compared. -/
def speakeasyBumps (speakeasyVersion : String) (mgmtConfig : MgmtConfig) :
    Except String (Bool × Bool × Bool) :=
  if mgmtConfig.speakeasyVersion == "" then .ok (false, true, false)
  else
    match parseSemver mgmtConfig.speakeasyVersion with
    | none => .error "error parsing config speakeasy version"
    | some prev =>
      match parseSemver speakeasyVersion with
      | none => .error "error parsing speakeasy version"
      | some cur => .ok (segmentBumps cur prev)

/-- The doc-version signal of `checkForChanges` (`main.go` lines
234-263): empty previous doc version recommends Minor; an unparseable
current doc version skips the signal (warning only); otherwise the
previous doc version must parse (fatal error on failure) and the
segments are compared. -/
def docBumps (docVersion : String) (mgmtConfig : MgmtConfig) :
    Except String (Bool × Bool × Bool) :=
  if mgmtConfig.openapiVersion == "" then .ok (false, true, false)
  else
    match parseSemver docVersion with
    | none => .ok (false, false, false)
    | some cur =>
      match parseSemver mgmtConfig.openapiVersion with
      | none => .error "error parsing config openapi version"
      | some prev => .ok (segmentBumps cur prev)

/-- The checksum signal of `checkForChanges` (`main.go` lines 265-275):
empty previous checksum recommends Minor; a changed checksum recommends
Patch. -/
def checksumBumps (docChecksum : String) (mgmtConfig : MgmtConfig) :
    Bool × Bool × Bool :=
  if mgmtConfig.openapiChecksum == "" then (false, true, false)
  else if docChecksum != mgmtConfig.openapiChecksum then (false, false, true)
  else (false, false, false)

/-- The starting `(major, minor, patch)` of `checkForChanges`
(`main.go` lines 277-288): `(0, 0, 0)` for an empty previous SDK
version, else its parsed segments (fatal error on parse failure). -/
def sdkBase (sdkVersion : String) : Except String (Nat × Nat × Nat) :=
  if sdkVersion != "" then
    match parseSemver sdkVersion with
    | none => .error "error parsing sdk version"
    | some v => .ok v
  else .ok (0, 0, 0)

/-- The `fmt.Sprintf("%d.%d.%d", major, minor, patch)` of
`checkForChanges` (`main.go` line 304). -/
def versionString (major minor patch : Nat) : String :=
  toString major ++ "." ++ toString minor ++ "." ++ toString patch

/-- Embedding of `checkForChanges` (`main.go` lines 203-308).  The Go
function returns the pair `(newVersion string, err error)`; the second
component models the Go `error` value (`none` = `nil`).  Bump
recommendations of the three signals are aggregated by boolean OR, then
resolved with precedence Major over Minor over Patch. -/
def checkForChanges (speakeasyVersion docVersion docChecksum sdkVersion : String)
    (mgmtConfig : MgmtConfig) : String × Option String :=
  if speakeasyVersion != mgmtConfig.speakeasyVersion
      || docVersion != mgmtConfig.openapiVersion
      || docChecksum != mgmtConfig.openapiChecksum then
    match speakeasyBumps speakeasyVersion mgmtConfig with
    | .error e => ("", some e)
    | .ok sB =>
      match docBumps docVersion mgmtConfig with
      | .error e => ("", some e)
      | .ok dB =>
        let cB := checksumBumps docChecksum mgmtConfig
        match sdkBase sdkVersion with
        | .error e => ("", some e)
        | .ok base =>
          let bumpMajor := sB.1 || dB.1 || cB.1
          let bumpMinor := sB.2.1 || dB.2.1 || cB.2.1
          let bumpPatch := sB.2.2 || dB.2.2 || cB.2.2
          let r :=
            if bumpMajor then (base.1 + 1, 0, 0)
            else if bumpMinor then (base.1, base.2.1 + 1, 0)
            else if bumpPatch then (base.1, base.2.1, base.2.2 + 1)
            else base
          (versionString r.1 r.2.1 r.2.2, none)
  else ("", none)

/-! ## The release ledger (`pkg/releases/releases.go`) -/

/-- `LanguageReleaseInfo` of `releases.go`. -/
structure LanguageReleaseInfo where
  PackageName : String
  Path : String
  Version : String
  URL : String
deriving Repr, DecidableEq

/-- `ReleasesInfo` of `releases.go`.  The Go `Languages` field is a
`map[string]LanguageReleaseInfo`; it is modelled as an association list
with distinct keys (Go map iteration order is unspecified, so theorems
about formatting use single-language records). -/
structure ReleasesInfo where
  ReleaseTitle : String
  DocVersion : String
  SpeakeasyVersion : String
  DocLocation : String
  Languages : List (String × LanguageReleaseInfo)
deriving Repr, DecidableEq

/-- Embedding of the `ReleasesInfo.String` method (`releases.go` lines
28-71).  The Go method reads the `GITHUB_REPOSITORY` environment
variable for the go release URL; it is threaded as the explicit
`githubRepository` argument. -/
def ReleasesInfo.render (githubRepository : String) (r : ReleasesInfo) : String :=
  let releasesOutput := r.Languages.filterMap fun li =>
    let info := li.2
    let p : String × String :=
      match li.1 with
      | "go" =>
        let tag := "v" ++ info.Version
        let tag := if info.Path != "." then info.Path ++ "/" ++ tag else tag
        ("Go", "https://github.com/" ++ githubRepository ++ "/releases/tag/" ++ tag)
      | "typescript" =>
        ("NPM", "https://www.npmjs.com/package/" ++ info.PackageName ++ "/v/" ++ info.Version)
      | "python" =>
        ("PyPI", "https://pypi.org/project/" ++ info.PackageName ++ "/" ++ info.Version)
      | "php" =>
        ("Composer", "https://packagist.org/packages/" ++ info.PackageName ++ "#v" ++ info.Version)
      | _ => ("", "")
    if p.1 != "" then
      some ("- [" ++ p.1 ++ " v" ++ info.Version ++ "] " ++ p.2 ++ " - " ++ info.Path)
    else none
  let releasesOutput :=
    if releasesOutput.length > 0 then "\n### Releases" :: releasesOutput else releasesOutput
  "\n\n" ++ "## " ++ r.ReleaseTitle ++ "\n### Changes\nBased on:\n- OpenAPI Doc "
    ++ r.DocVersion ++ " " ++ r.DocLocation ++ "\n- Speakeasy CLI " ++ r.SpeakeasyVersion
    ++ " https://github.com/speakeasy-api/speakeasy" ++ String.intercalate "\n" releasesOutput

/-- Embedding of `UpdateReleasesFile` (`releases.go` lines 73-88): the
ledger file content with the rendered record appended. -/
def UpdateReleasesFile (ledger githubRepository : String) (releaseInfo : ReleasesInfo) : String :=
  ledger ++ releaseInfo.render githubRepository

/-- `strings.Split(data, "\n\n")` of `ParseReleases`: split at each
non-overlapping occurrence of a blank line, left to right. -/
def splitBlocks : List Char → List (List Char)
  | [] => [[]]
  | '\n' :: '\n' :: rest => [] :: splitBlocks rest
  | c :: rest =>
    match splitBlocks rest with
    | [] => [[c]]
    | b :: bs => (c :: b) :: bs

/-- Match a literal piece of a regular expression, then continue. -/
def lit (pat : List Char) (k : List Char → Option α) (s : List Char) : Option α :=
  if pat.isPrefixOf s then k (s.drop pat.length) else none

/-- A non-greedy `(.*?)` under the `s` flag (any character, newline
included): consume the shortest prefix after which the continuation
succeeds, returning the consumed characters. -/
def lazyUpTo (k : List Char → Option α) : List Char → Option (List Char × α)
  | [] => (k []).map fun a => ([], a)
  | c :: rest =>
    match k (c :: rest) with
    | some a => some ([], a)
    | none => (lazyUpTo k rest).map fun p => (c :: p.1, p.2)

/-- A non-greedy `(.*?)` without the `s` flag: as `lazyUpTo`, but `.`
does not match a newline. -/
def lazyUpToNoNL (k : List Char → Option α) : List Char → Option (List Char × α)
  | [] => (k []).map fun a => ([], a)
  | c :: rest =>
    match k (c :: rest) with
    | some a => some ([], a)
    | none =>
      if c == '\n' then none
      else (lazyUpToNoNL k rest).map fun p => (c :: p.1, p.2)

/-- A single `.` without the `s` flag: any one character except a
newline. -/
def anyNoNL (k : List Char → Option α) (s : List Char) : Option (Char × α) :=
  match s with
  | [] => none
  | c :: rest => if c == '\n' then none else (k rest).map fun a => (c, a)

/-- An optional character (`\/?`): greedily try consuming it, falling
back to consuming nothing. -/
def optChar (c : Char) (k : List Char → Option α) (s : List Char) :
    Option (List Char × α) :=
  match s with
  | [] => (k []).map fun a => ([], a)
  | c2 :: rest =>
    if c2 == c then
      match k rest with
      | some a => some ([c2], a)
      | none => (k (c2 :: rest)).map fun a => ([], a)
    else (k (c2 :: rest)).map fun a => ([], a)

/-- A final greedy `(.*)` without the `s` flag: the rest of the line. -/
def takeLine : List Char → List Char
  | [] => []
  | c :: rest => if c == '\n' then [] else c :: takeLine rest

/-- `\d+\.\d+\.\d+`: three dot-separated nonempty digit runs (maximal,
which agrees with greedy `\d+` since no following pattern piece can
match a digit), capturing the consumed text. -/
def semverDigits (k : List Char → Option α) (s : List Char) :
    Option (List Char × α) :=
  let p1 := digitRun s
  if p1.1.isEmpty then none else
  match p1.2 with
  | '.' :: r2 =>
    let p2 := digitRun r2
    if p2.1.isEmpty then none else
    match p2.2 with
    | '.' :: r4 =>
      let p3 := digitRun r4
      if p3.1.isEmpty then none
      else (k p3.2).map fun a => (p1.1 ++ '.' :: p2.1 ++ '.' :: p3.1, a)
    | _ => none
  | _ => none

/-- Leftmost match: try the matcher at each start position, left to
right (the search of `regexp.FindStringSubmatch`). -/
def searchLeftmost (m : List Char → Option α) : List Char → Option α
  | [] => m []
  | c :: rest =>
    match m (c :: rest) with
    | some a => some a
    | none => searchLeftmost m rest

/-- Matcher of `releaseInfoRegex` at one start position:
`(?s)## (.*?)\n### Changes\nBased on:\n- OpenAPI Doc (.*?) (.*?)\n- Speakeasy CLI (.*?) .*?`
returning the four submatches (title, doc version, doc location,
speakeasy version); the trailing lazy `.*?` matches the empty string. -/
def headerHere (s : List Char) : Option (List Char × List Char × List Char × List Char) :=
  match lit "## ".toList (lazyUpTo (lit "\n### Changes\nBased on:\n- OpenAPI Doc ".toList
      (lazyUpTo (lit " ".toList (lazyUpTo (lit "\n- Speakeasy CLI ".toList
        (lazyUpTo (lit " ".toList some)))))))) s with
  | some (g1, (g2, (g3, (g4, _)))) => some (g1, g2, g3, g4)
  | none => none

/-- Matcher of `npmReleaseRegex` at one start position:
`- \[NPM v(\d+\.\d+\.\d+)\] (https:\/\/www\.npmjs\.com\/package\/(.*?)\/v\/\d+\.\d+\.\d+) - (.*)`
returning the submatches (version, url, package name, path); the url
submatch is reassembled from its pieces. -/
def npmHere (s : List Char) : Option (List Char × List Char × List Char × List Char) :=
  match lit "- [NPM v".toList (semverDigits (lit "] https://www.npmjs.com/package/".toList
      (lazyUpToNoNL (lit "/v/".toList (semverDigits (lit " - ".toList
        fun rest => some (takeLine rest))))))) s with
  | some (v1, (pkg, (v2, path))) =>
    some (v1, "https://www.npmjs.com/package/".toList ++ pkg ++ "/v/".toList ++ v2, pkg, path)
  | none => none

/-- Matcher of `pypiReleaseRegex` at one start position:
`- \[PyPI v(\d+\.\d+\.\d+)\] (https:\/\/pypi\.org\/project\/(.*?)\/\d+\.\d+\.\d+) - (.*)`. -/
def pypiHere (s : List Char) : Option (List Char × List Char × List Char × List Char) :=
  match lit "- [PyPI v".toList (semverDigits (lit "] https://pypi.org/project/".toList
      (lazyUpToNoNL (lit "/".toList (semverDigits (lit " - ".toList
        fun rest => some (takeLine rest))))))) s with
  | some (v1, (pkg, (v2, path))) =>
    some (v1, "https://pypi.org/project/".toList ++ pkg ++ "/".toList ++ v2, pkg, path)
  | none => none

/-- Matcher of `goReleaseRegex` at one start position:
`- \[Go v(\d+\.\d+\.\d+)\] (https:\/\/(github.com\/.*?)\/releases\/tag\/.*?\/?v\d+\.\d+\.\d+) - (.*)`.
The `.` of `github.com` in the pattern is unescaped, so it matches any
one non-newline character (`anyNoNL`).  Returns (version, url,
submatch 3, path), the url and submatch 3 reassembled from their
pieces. -/
def goHere (s : List Char) : Option (List Char × List Char × List Char × List Char) :=
  match lit "- [Go v".toList (semverDigits (lit "] https://github".toList (anyNoNL
      (lit "com/".toList (lazyUpToNoNL (lit "/releases/tag/".toList (lazyUpToNoNL
        (optChar '/' (lit "v".toList (semverDigits (lit " - ".toList
          fun rest => some (takeLine rest)))))))))))) s with
  | some (v1, (dotc, (repoRest, (mid, (slashc, (v2, path)))))) =>
    let repo := "github".toList ++ dotc :: "com/".toList ++ repoRest
    some (v1,
      "https://".toList ++ repo ++ "/releases/tag/".toList ++ mid ++ slashc ++ 'v' :: v2,
      repo, path)
  | none => none

/-- Matcher of `composerReleaseRegex` at one start position:
`- \[Composer v(\d+\.\d+\.\d+)\] (https:\/\/packagist\.org\/packages\/(.*?)#v\d+\.\d+\.\d+) - (.*)`. -/
def composerHere (s : List Char) : Option (List Char × List Char × List Char × List Char) :=
  match lit "- [Composer v".toList (semverDigits (lit "] https://packagist.org/packages/".toList
      (lazyUpToNoNL (lit "#v".toList (semverDigits (lit " - ".toList
        fun rest => some (takeLine rest))))))) s with
  | some (v1, (pkg, (v2, path))) =>
    some (v1, "https://packagist.org/packages/".toList ++ pkg ++ "#v".toList ++ v2, pkg, path)
  | none => none

/-- `strings.TrimPrefix`: drop the prefix if present, else return the
list unchanged. -/
def trimPrefixL (pre s : List Char) : List Char :=
  if pre.isPrefixOf s then s.drop pre.length else s

/-- The singleton or empty association-list entry contributed by one
optional language match of `ParseReleases`. -/
def optLang (lang : String) (x : Option LanguageReleaseInfo) :
    List (String × LanguageReleaseInfo) :=
  match x with
  | some i => [(lang, i)]
  | none => []

/-- Embedding of `ParseReleases` (`releases.go` lines 109-180): split
the ledger on blank lines, take the final block, require the header
pattern to match (else a parse error and no record), then collect one
optional entry per supported ecosystem.  The Go function returns
`(*ReleasesInfo, error)` with exactly one of the two non-nil, which
`Except` models.  For go, a path other than `"."` (leading `"./"`
stripped) is appended to the captured repository identifier to form the
package name. -/
def ParseReleases (data : String) : Except String ReleasesInfo :=
  let lastRelease := (splitBlocks data.toList).getLastD []
  match searchLeftmost headerHere lastRelease with
  | none => .error "error parsing last release info"
  | some (title, docVersion, docLocation, speakeasyVersion) =>
    let tsEntry := (searchLeftmost npmHere lastRelease).map fun m =>
      { Version := m.1.asString, URL := m.2.1.asString,
        PackageName := m.2.2.1.asString, Path := m.2.2.2.asString : LanguageReleaseInfo }
    let pyEntry := (searchLeftmost pypiHere lastRelease).map fun m =>
      { Version := m.1.asString, URL := m.2.1.asString,
        PackageName := m.2.2.1.asString, Path := m.2.2.2.asString : LanguageReleaseInfo }
    let goEntry := (searchLeftmost goHere lastRelease).map fun m =>
      let path := m.2.2.2
      let packageName :=
        if path != ".".toList then m.2.2.1 ++ '/' :: trimPrefixL "./".toList path
        else m.2.2.1
      { Version := m.1.asString, URL := m.2.1.asString,
        PackageName := packageName.asString, Path := path.asString : LanguageReleaseInfo }
    let phpEntry := (searchLeftmost composerHere lastRelease).map fun m =>
      { Version := m.1.asString, URL := m.2.1.asString,
        PackageName := m.2.2.1.asString, Path := m.2.2.2.asString : LanguageReleaseInfo }
    .ok { ReleaseTitle := title.asString, DocVersion := docVersion.asString,
          DocLocation := docLocation.asString, SpeakeasyVersion := speakeasyVersion.asString,
          Languages := optLang "typescript" tsEntry ++ optLang "python" pyEntry
            ++ optLang "go" goEntry ++ optLang "php" phpEntry }

/-- Lexicographic order of semantic-version triples (the spec's
"compared as a semantic-version triple"). -/
def semverLe (x y : Nat × Nat × Nat) : Prop :=
  x.1 < y.1 ∨ (x.1 = y.1 ∧ (x.2.1 < y.2.1 ∨ (x.2.1 = y.2.1 ∧ x.2.2 ≤ y.2.2)))

instance (x y : Nat × Nat × Nat) : Decidable (semverLe x y) := by
  unfold semverLe; infer_instance

/-- The concrete go record of the spec's ledger round-trip example. -/
def roundTripGoRecord : ReleasesInfo :=
  { ReleaseTitle := "v1.2.0", DocVersion := "1.0.0", SpeakeasyVersion := "1.20.0",
    DocLocation := "spec.yaml",
    Languages := [("go",
      { PackageName := "org/repo", Path := ".", Version := "1.2.0", URL := "" })] }

/-- An analogous concrete typescript record. -/
def roundTripTsRecord : ReleasesInfo :=
  { ReleaseTitle := "v1.2.0", DocVersion := "1.0.0", SpeakeasyVersion := "1.20.0",
    DocLocation := "spec.yaml",
    Languages := [("typescript",
      { PackageName := "my-pkg", Path := "ts", Version := "1.2.0", URL := "" })] }

/-- An analogous concrete python record. -/
def roundTripPyRecord : ReleasesInfo :=
  { ReleaseTitle := "v1.2.0", DocVersion := "1.0.0", SpeakeasyVersion := "1.20.0",
    DocLocation := "spec.yaml",
    Languages := [("python",
      { PackageName := "my-pkg", Path := "py", Version := "1.2.0", URL := "" })] }

/-- An analogous concrete php record. -/
def roundTripPhpRecord : ReleasesInfo :=
  { ReleaseTitle := "v1.2.0", DocVersion := "1.0.0", SpeakeasyVersion := "1.20.0",
    DocLocation := "spec.yaml",
    Languages := [("php",
      { PackageName := "org/pkg", Path := "php", Version := "1.2.0", URL := "" })] }

/-- A syntactically well-formed ledger block whose go release line
exploits the unescaped dot of `goReleaseRegex` (`github.com` in the
pattern matches `githubXcom` in the text). -/
def oddGoLedger : String :=
  "## t\n### Changes\nBased on:\n- OpenAPI Doc 1.0.0 x\n- Speakeasy CLI 1.20.0 y\n### Releases\n- [Go v1.0.0] https://githubXcom/org/repo/releases/tag/v1.0.0 - ."

/-! ## Shared lemmas -/

/-- The tool-version signal fails exactly when the previous tool
version is non-empty and it, or the current tool version, does not
parse. -/
theorem speakeasyBumps_error_iff (sv : String) (m : MgmtConfig) :
    (∃ e, speakeasyBumps sv m = .error e) ↔
      m.speakeasyVersion ≠ "" ∧
        (parseSemver m.speakeasyVersion = none ∨ parseSemver sv = none) := by
  unfold speakeasyBumps
  cases h1 : m.speakeasyVersion == "" <;>
    cases h2 : parseSemver m.speakeasyVersion <;>
      cases h3 : parseSemver sv <;>
        simp_all

/-- The doc-version signal fails exactly when the previous doc version
is non-empty and does not parse while the current doc version does. -/
theorem docBumps_error_iff (dv : String) (m : MgmtConfig) :
    (∃ e, docBumps dv m = .error e) ↔
      m.openapiVersion ≠ "" ∧ (∃ x, parseSemver dv = some x) ∧
        parseSemver m.openapiVersion = none := by
  unfold docBumps
  cases h1 : m.openapiVersion == "" <;>
    cases h2 : parseSemver dv <;>
      cases h3 : parseSemver m.openapiVersion <;>
        simp_all

/-- The starting-version computation fails exactly when the previous
SDK version is non-empty and does not parse. -/
theorem sdkBase_error_iff (sdk : String) :
    (∃ e, sdkBase sdk = .error e) ↔ sdk ≠ "" ∧ parseSemver sdk = none := by
  unfold sdkBase
  cases h1 : sdk != "" <;> cases h2 : parseSemver sdk <;> simp_all

/-- Every return of `checkForChanges` has an empty version or a nil
error. -/
theorem checkForChanges_shape (sv dv dc sdk : String) (m : MgmtConfig) :
    (checkForChanges sv dv dc sdk m).1 = "" ∨
      (checkForChanges sv dv dc sdk m).2 = none := by
  unfold checkForChanges
  repeat' split
  all_goals simp

/-! ## C3: no-op idempotence -/

/-- C3: when the current tool version, doc version and doc checksum all
equal the previously recorded ones, `checkForChanges` returns the empty
version and a nil error, for all strings, parseable or not. -/
theorem c3_noop_idempotence (sv dv dc sdk : String) (m : MgmtConfig)
    (h1 : sv = m.speakeasyVersion) (h2 : dv = m.openapiVersion)
    (h3 : dc = m.openapiChecksum) :
    checkForChanges sv dv dc sdk m = ("", none) := by
  subst h1; subst h2; subst h3
  simp [checkForChanges]

/-- Witness for C3, at strings that are not semantic versions. -/
theorem c3_witness :
    checkForChanges "not semver" "also not" "x" "garbage"
      ⟨"not semver", "also not", "x"⟩ = ("", none) :=
  c3_noop_idempotence _ _ _ _ _ rfl rfl rfl

/-! ## C4: first run -/

/-- C4: with entirely empty previous management metadata and an empty
previous SDK version, `checkForChanges` returns exactly "0.1.0" with a
nil error, whenever at least one current field is non-empty. -/
theorem c4_first_run (sv dv dc : String) (h : sv ≠ "" ∨ dv ≠ "" ∨ dc ≠ "") :
    checkForChanges sv dv dc "" ⟨"", "", ""⟩ = ("0.1.0", none) := by
  have hcond : (sv != "" || dv != "" || dc != "") = true := by
    rcases h with h | h | h <;> simp [h]
  simp [checkForChanges, hcond, speakeasyBumps, docBumps, checksumBumps, sdkBase]
  rfl

/-- Witness for C4: an unparseable current tool version still yields
"0.1.0" on a first run. -/
theorem c4_witness :
    checkForChanges "vNext" "" "" "" ⟨"", "", ""⟩ = ("0.1.0", none) :=
  c4_first_run _ _ _ (by simp)

/-! ## C9: error atomicity -/

/-- C9: whenever `checkForChanges` returns a non-nil error, the version
it returns is the empty string. -/
theorem c9_error_atomicity (sv dv dc sdk : String) (m : MgmtConfig)
    (h : (checkForChanges sv dv dc sdk m).2 ≠ none) :
    (checkForChanges sv dv dc sdk m).1 = "" :=
  (checkForChanges_shape sv dv dc sdk m).resolve_right h

/-- Witness for C9, at an input whose previous tool version does not
parse. -/
theorem c9_witness :
    (checkForChanges "1.0.0" "" "" "" ⟨"bad", "", ""⟩).2 ≠ none ∧
      (checkForChanges "1.0.0" "" "" "" ⟨"bad", "", ""⟩).1 = "" :=
  ⟨by decide, c9_error_atomicity _ _ _ _ _ (by decide)⟩

/-! ## C2: return on "no bump warranted" -/

/-- C2 counterexample: metadata differs (previous tool version "2.0.0",
current "1.0.0"), every signal yields no recommendation, yet
`checkForChanges` returns the non-empty previous SDK version "1.2.3"
(and a nil error) instead of the empty string. -/
theorem c2_counterexample :
    speakeasyBumps "1.0.0" ⟨"2.0.0", "1.0.0", "abc"⟩ = .ok (false, false, false) ∧
    docBumps "1.0.0" ⟨"2.0.0", "1.0.0", "abc"⟩ = .ok (false, false, false) ∧
    checksumBumps "abc" ⟨"2.0.0", "1.0.0", "abc"⟩ = (false, false, false) ∧
    checkForChanges "1.0.0" "1.0.0" "abc" "1.2.3" ⟨"2.0.0", "1.0.0", "abc"⟩
      = ("1.2.3", none) ∧
    ("1.2.3" : String) ≠ "" :=
  ⟨rfl, rfl, rfl, rfl, by decide⟩

/-- C2 amended: when the metadata triple differs from the previous one
but no signal recommends Major, Minor or Patch, `checkForChanges`
returns the previous SDK version's triple reformatted (non-empty) with
a nil error; the empty string is returned only when the metadata triple
is unchanged. -/
theorem c2_amended_no_bump (sv dv dc sdk : String) (m : MgmtConfig)
    (base : Nat × Nat × Nat)
    (hdiff : (sv != m.speakeasyVersion || dv != m.openapiVersion
      || dc != m.openapiChecksum) = true)
    (hs : speakeasyBumps sv m = .ok (false, false, false))
    (hd : docBumps dv m = .ok (false, false, false))
    (hc : checksumBumps dc m = (false, false, false))
    (hb : sdkBase sdk = .ok base) :
    checkForChanges sv dv dc sdk m
      = (versionString base.1 base.2.1 base.2.2, none) := by
  unfold checkForChanges
  simp [hdiff, hs, hd, hc, hb]

/-- Witness for the amended C2, at the counterexample's input. -/
theorem c2_witness :
    checkForChanges "1.0.0" "1.0.0" "abc" "1.2.3" ⟨"2.0.0", "1.0.0", "abc"⟩
      = (versionString 1 2 3, none) :=
  c2_amended_no_bump _ _ _ _ _ (1, 2, 3) (by decide) rfl rfl rfl rfl

/-! ## C7: fatal parse failures -/

/-- C7 counterexample: the metadata differs and the current tool
version "not-semver" fails to parse, yet `checkForChanges` returns a
nil error (with "0.1.0"), because the previous tool version is empty
and the current tool version is then never parsed. -/
theorem c7_counterexample :
    parseSemver "not-semver" = none ∧
    checkForChanges "not-semver" "1.0.0" "abc" "" ⟨"", "", ""⟩
      = ("0.1.0", none) :=
  ⟨rfl, rfl⟩

/-- C7 amended: when the metadata differs, `checkForChanges` returns a
non-nil error exactly when a mandatory version string fails to parse:
the previous tool version when non-empty, the current tool version when
the previous tool version is non-empty, the previous doc version when
non-empty and the current doc version parses, and the previous SDK
version when non-empty.  In particular a current doc version that fails
to parse never by itself causes an error. -/
theorem c7_amended_fatal_parses (sv dv dc sdk : String) (m : MgmtConfig)
    (hdiff : (sv != m.speakeasyVersion || dv != m.openapiVersion
      || dc != m.openapiChecksum) = true) :
    (checkForChanges sv dv dc sdk m).2 ≠ none ↔
      (m.speakeasyVersion ≠ "" ∧ parseSemver m.speakeasyVersion = none)
      ∨ (m.speakeasyVersion ≠ "" ∧ parseSemver sv = none)
      ∨ (m.openapiVersion ≠ "" ∧ (∃ x, parseSemver dv = some x)
          ∧ parseSemver m.openapiVersion = none)
      ∨ (sdk ≠ "" ∧ parseSemver sdk = none) := by
  unfold checkForChanges
  simp only [hdiff, if_true]
  rcases hS : speakeasyBumps sv m with e | sB
  · obtain ⟨hne, hor⟩ := (speakeasyBumps_error_iff sv m).mp ⟨e, hS⟩
    simp only [hS]
    constructor
    · intro _
      rcases hor with h1 | h1
      · exact Or.inl ⟨hne, h1⟩
      · exact Or.inr (Or.inl ⟨hne, h1⟩)
    · intro _
      simp
  · rcases hD : docBumps dv m with e | dB
    · obtain ⟨hne, hsome, hnone⟩ := (docBumps_error_iff dv m).mp ⟨e, hD⟩
      simp only [hS, hD]
      constructor
      · intro _
        exact Or.inr (Or.inr (Or.inl ⟨hne, hsome, hnone⟩))
      · intro _
        simp
    · rcases hB : sdkBase sdk with e | base
      · obtain ⟨hne, hnone⟩ := (sdkBase_error_iff sdk).mp ⟨e, hB⟩
        simp only [hS, hD, hB]
        constructor
        · intro _
          exact Or.inr (Or.inr (Or.inr ⟨hne, hnone⟩))
        · intro _
          simp
      · simp only [hS, hD, hB]
        constructor
        · intro hcontra
          simp at hcontra
        · rintro (⟨h1, h2⟩ | ⟨h1, h2⟩ | hC | hDd)
          · obtain ⟨e, he⟩ := (speakeasyBumps_error_iff sv m).mpr ⟨h1, Or.inl h2⟩
            rw [hS] at he
            exact Except.noConfusion he
          · obtain ⟨e, he⟩ := (speakeasyBumps_error_iff sv m).mpr ⟨h1, Or.inr h2⟩
            rw [hS] at he
            exact Except.noConfusion he
          · obtain ⟨e, he⟩ := (docBumps_error_iff dv m).mpr hC
            rw [hD] at he
            exact Except.noConfusion he
          · obtain ⟨e, he⟩ := (sdkBase_error_iff sdk).mpr hDd
            rw [hB] at he
            exact Except.noConfusion he

/-- Witness for the amended C7, at an input whose previous doc version
is non-empty and unparseable while the current doc version parses. -/
theorem c7_witness :
    (checkForChanges "1.0.0" "1.0.0" "abc" "" ⟨"1.0.0", "bad", "abc"⟩).2 ≠ none :=
  (c7_amended_fatal_parses "1.0.0" "1.0.0" "abc" "" ⟨"1.0.0", "bad", "abc"⟩
    (by decide)).mpr
    (Or.inr (Or.inr (Or.inl ⟨by decide, ⟨(1, 0, 0), rfl⟩, rfl⟩)))

/-! ## C5: precedence law -/

/-- C5: whenever `checkForChanges` returns a non-empty version without
error, the aggregated signal recommendations resolve with strict
precedence Major over Minor over Patch: a Major recommendation zeroes
minor and patch, else a Minor recommendation zeroes patch, else a Patch
recommendation increments only the patch component of the previous
version. -/
theorem c5_precedence (sv dv dc sdk v : String) (m : MgmtConfig)
    (sB dB cB : Bool × Bool × Bool) (base : Nat × Nat × Nat)
    (hv : checkForChanges sv dv dc sdk m = (v, none)) (hne : v ≠ "")
    (hs : speakeasyBumps sv m = .ok sB) (hd : docBumps dv m = .ok dB)
    (hc : checksumBumps dc m = cB) (hb : sdkBase sdk = .ok base) :
    ((sB.1 || dB.1 || cB.1) = true →
      v = versionString (base.1 + 1) 0 0) ∧
    ((sB.1 || dB.1 || cB.1) = false → (sB.2.1 || dB.2.1 || cB.2.1) = true →
      v = versionString base.1 (base.2.1 + 1) 0) ∧
    ((sB.1 || dB.1 || cB.1) = false → (sB.2.1 || dB.2.1 || cB.2.1) = false →
      (sB.2.2 || dB.2.2 || cB.2.2) = true →
      v = versionString base.1 base.2.1 (base.2.2 + 1)) := by
  subst hc
  unfold checkForChanges at hv
  by_cases hcond : (sv != m.speakeasyVersion || dv != m.openapiVersion
      || dc != m.openapiChecksum) = true
  · simp only [hcond, if_true, hs, hd, hb] at hv
    rw [Prod.mk.injEq] at hv
    obtain ⟨hv, -⟩ := hv
    refine ⟨fun h1 => ?_, fun h1 h2 => ?_, fun h1 h2 h3 => ?_⟩
    · rw [← hv]
      simp [h1]
    · rw [← hv]
      simp [h1, h2]
    · rw [← hv]
      simp [h1, h2, h3]
  · simp only [Bool.not_eq_true] at hcond
    rw [hcond] at hv
    simp only [Bool.false_eq_true, if_false] at hv
    rw [Prod.mk.injEq] at hv
    exact absurd hv.1.symm hne

/-- Witness for C5: a tool-version major bump resolves to
(major+1).0.0. -/
theorem c5_witness :
    checkForChanges "2.0.0" "1.0.0" "abc" "1.2.3" ⟨"1.0.0", "1.0.0", "abc"⟩
        = ("2.0.0", none) ∧
      (((true, false, false) : Bool × Bool × Bool).1 = true →
        ("2.0.0" : String) = versionString (1 + 1) 0 0) := by
  refine ⟨rfl, ?_⟩
  have h := c5_precedence "2.0.0" "1.0.0" "abc" "1.2.3" "2.0.0"
    ⟨"1.0.0", "1.0.0", "abc"⟩ (true, false, false) (false, false, false)
    (false, false, false) (1, 2, 3) rfl (by decide) rfl rfl rfl rfl
  intro h1
  exact h.1 (by decide)

/-! ## C6: monotonicity -/

/-- C6: whenever `checkForChanges` returns a non-empty version with a
nil error, that version is the formatting of a semantic-version triple
that is lexicographically at least the starting triple (the parsed
previous SDK version, or (0,0,0) when it was empty). -/
theorem c6_monotone (sv dv dc sdk v : String) (m : MgmtConfig)
    (base : Nat × Nat × Nat)
    (hv : checkForChanges sv dv dc sdk m = (v, none)) (hne : v ≠ "")
    (hb : sdkBase sdk = .ok base) :
    ∃ t : Nat × Nat × Nat,
      v = versionString t.1 t.2.1 t.2.2 ∧ semverLe base t := by
  unfold checkForChanges at hv
  by_cases hcond : (sv != m.speakeasyVersion || dv != m.openapiVersion
      || dc != m.openapiChecksum) = true
  · simp only [hcond, if_true] at hv
    rcases hS : speakeasyBumps sv m with e | sB <;> rw [hS] at hv
    · exact absurd (congrArg Prod.snd hv) (by simp)
    rcases hD : docBumps dv m with e | dB <;> rw [hD] at hv
    · exact absurd (congrArg Prod.snd hv) (by simp)
    rw [hb] at hv
    rw [Prod.mk.injEq] at hv
    obtain ⟨hv, -⟩ := hv
    set cB := checksumBumps dc m with hcB
    by_cases h1 : (sB.1 || dB.1 || cB.1) = true
    · refine ⟨(base.1 + 1, 0, 0), ?_, Or.inl (Nat.lt_succ_self _)⟩
      rw [← hv]
      simp [h1]
    by_cases h2 : (sB.2.1 || dB.2.1 || cB.2.1) = true
    · refine ⟨(base.1, base.2.1 + 1, 0), ?_,
        Or.inr ⟨rfl, Or.inl (Nat.lt_succ_self _)⟩⟩
      rw [← hv]
      simp only [Bool.not_eq_true] at h1
      simp [h1, h2]
    by_cases h3 : (sB.2.2 || dB.2.2 || cB.2.2) = true
    · refine ⟨(base.1, base.2.1, base.2.2 + 1), ?_,
        Or.inr ⟨rfl, Or.inr ⟨rfl, Nat.le_succ _⟩⟩⟩
      rw [← hv]
      simp only [Bool.not_eq_true] at h1 h2
      simp [h1, h2, h3]
    · refine ⟨base, ?_, Or.inr ⟨rfl, Or.inr ⟨rfl, Nat.le_refl _⟩⟩⟩
      rw [← hv]
      simp only [Bool.not_eq_true] at h1 h2 h3
      simp [h1, h2, h3]
  · simp only [Bool.not_eq_true] at hcond
    rw [hcond] at hv
    simp only [Bool.false_eq_true, if_false] at hv
    rw [Prod.mk.injEq] at hv
    exact absurd hv.1.symm hne

/-- Witness for C6: a minor bump from "1.2.3" yields "1.3.0", at least
(1,2,3). -/
theorem c6_witness :
    ∃ t : Nat × Nat × Nat,
      ("1.3.0" : String) = versionString t.1 t.2.1 t.2.2 ∧ semverLe (1, 2, 3) t :=
  c6_monotone "1.1.0" "1.0.0" "abc" "1.2.3" "1.3.0" ⟨"1.0.0", "1.0.0", "abc"⟩
    (1, 2, 3) rfl (by decide) rfl

/-! ## C8: malformed ledger rejection -/

/-- C8: for every ledger text whose final blank-line-separated block
the header pattern does not match — the empty ledger included —
`ParseReleases` returns the parse error and no record. -/
theorem c8_malformed_ledger (data : String)
    (h : searchLeftmost headerHere ((splitBlocks data.toList).getLastD []) = none) :
    ParseReleases data = .error "error parsing last release info" := by
  unfold ParseReleases
  simp only [h]

/-- Witness for C8: the empty ledger text. -/
theorem c8_witness :
    ParseReleases "" = .error "error parsing last release info" :=
  c8_malformed_ledger "" rfl

/-! ## More shared lemmas, for the go parsing claims -/

/-- A successful leftmost search comes from a successful match at some
start position. -/
theorem searchLeftmost_some {α : Type} {m : List Char → Option α} {s : List Char}
    {a : α} (h : searchLeftmost m s = some a) : ∃ t, m t = some a := by
  induction s with
  | nil => exact ⟨[], h⟩
  | cons c rest ih =>
    unfold searchLeftmost at h
    rcases hm : m (c :: rest) with _ | b
    · rw [hm] at h
      exact ih h
    · rw [hm] at h
      exact ⟨c :: rest, hm.trans h⟩

/-- Submatch 3 of a successful go release match always consists of
`github`, one arbitrary non-newline character, `com/`, and a tail. -/
theorem goHere_repo_shape {s v url repo path : List Char}
    (h : goHere s = some (v, url, repo, path)) :
    ∃ (c : Char) (mid : List Char),
      repo = "github".toList ++ c :: "com/".toList ++ mid := by
  unfold goHere at h
  split at h
  · simp only [Option.some.injEq, Prod.mk.injEq] at h
    exact ⟨_, _, h.2.2.1.symm⟩
  · exact Option.noConfusion h

/-- Looking up "go" in the association list built by `ParseReleases`
yields exactly the go entry. -/
theorem lookup_optLangs_go (a b c d : Option LanguageReleaseInfo) :
    (optLang "typescript" a ++ optLang "python" b ++ optLang "go" c
      ++ optLang "php" d).lookup "go" = c := by
  cases a <;> cases b <;> cases c <;> cases d <;> rfl

/-! ## C10: shape of the parsed go package name -/

/-- C10 counterexample: a ledger block whose go release line reads
`https://githubXcom/org/repo/...` is matched (the pattern's dot in
`github.com` is unescaped), so the parsed go package name is
"githubXcom/org/repo", which does not have "github.com/" as prefix. -/
theorem c10_counterexample :
    ParseReleases oddGoLedger
        = .ok { ReleaseTitle := "t", DocVersion := "1.0.0",
                SpeakeasyVersion := "1.20.0", DocLocation := "x",
                Languages := [("go",
                  { PackageName := "githubXcom/org/repo", Path := ".",
                    Version := "1.0.0",
                    URL := "https://githubXcom/org/repo/releases/tag/v1.0.0" })] } ∧
      ("github.com/".toList.isPrefixOf "githubXcom/org/repo".toList) = false :=
  ⟨rfl, by decide⟩

/-- C10 amended: whenever `ParseReleases` returns a record with a go
entry, its package name is the captured repository identifier —
`github`, one arbitrary non-newline character (the unescaped dot of the
pattern, "." in well-formed ledgers), `com/`, and a tail — with "/"
plus the path (leading "./" stripped) appended when the parsed path is
not ".", irrespective of any package name the record's writer held. -/
theorem c10_amended_go_package_shape (data : String) (info : ReleasesInfo)
    (e : LanguageReleaseInfo)
    (hp : ParseReleases data = .ok info)
    (he : info.Languages.lookup "go" = some e) :
    ∃ (c : Char) (mid : List Char),
      e.PackageName.toList
        = ("github".toList ++ c :: "com/".toList ++ mid)
          ++ (if e.Path.toList = ".".toList then []
              else '/' :: trimPrefixL "./".toList e.Path.toList) := by
  unfold ParseReleases at hp
  rcases hh : searchLeftmost headerHere ((splitBlocks data.toList).getLastD [])
    with _ | ⟨t, dvv, dl, svv⟩
  · simp only [hh] at hp
    exact Except.noConfusion hp
  · simp only [hh, Except.ok.injEq] at hp
    subst hp
    simp only [lookup_optLangs_go] at he
    rcases hg : searchLeftmost goHere ((splitBlocks data.toList).getLastD [])
      with _ | m4
    · rw [hg] at he
      exact Option.noConfusion he
    · rw [hg] at he
      simp only [Option.map_some'] at he
      obtain ⟨v, url, repo, path⟩ := m4
      obtain ⟨t0, hgo⟩ := searchLeftmost_some hg
      obtain ⟨c, mid, hshape⟩ := goHere_repo_shape hgo
      simp only [Option.some.injEq] at he
      subst he
      refine ⟨c, mid, ?_⟩
      simp only [List.toList_asString]
      by_cases hpath : path = ['.']
      · simp [hpath, hshape]
      · simp [hpath, hshape]

/-- Witness for the amended C10, at the round-trip record's ledger. -/
theorem c10_witness :
    ∃ (c : Char) (mid : List Char),
      ("github.com/org/repo" : String).toList
        = ("github".toList ++ c :: "com/".toList ++ mid)
          ++ (if ("." : String).toList = ".".toList then []
              else '/' :: trimPrefixL "./".toList ("." : String).toList) :=
  c10_amended_go_package_shape
    (UpdateReleasesFile "" "org/repo" roundTripGoRecord)
    { ReleaseTitle := "v1.2.0", DocVersion := "1.0.0",
      SpeakeasyVersion := "1.20.0", DocLocation := "spec.yaml",
      Languages := [("go",
        { PackageName := "github.com/org/repo", Path := ".", Version := "1.2.0",
          URL := "https://github.com/org/repo/releases/tag/v1.2.0" })] }
    { PackageName := "github.com/org/repo", Path := ".", Version := "1.2.0",
      URL := "https://github.com/org/repo/releases/tag/v1.2.0" }
    rfl rfl

/-! ## C1: ledger round-trip -/

/-- C1 counterexample: the spec's round-trip record, written with
`GITHUB_REPOSITORY` = "org/repo" and parsed back, yields a go entry
whose package name is "github.com/org/repo" — not the "org/repo" that
was written: the go release line never serializes the package name, and
the parser captures the host-qualified identifier from the URL. -/
theorem c1_counterexample :
    ParseReleases (UpdateReleasesFile "" "org/repo" roundTripGoRecord)
      = .ok { ReleaseTitle := "v1.2.0", DocVersion := "1.0.0",
              SpeakeasyVersion := "1.20.0", DocLocation := "spec.yaml",
              Languages := [("go",
                { PackageName := "github.com/org/repo", Path := ".",
                  Version := "1.2.0",
                  URL := "https://github.com/org/repo/releases/tag/v1.2.0" })] } ∧
      ("github.com/org/repo" : String) ≠ "org/repo" :=
  ⟨rfl, by decide⟩

/-- C1 amended: parsing back a just-written record reproduces the
(version, path) pair for every supported language and the written
package name for typescript, python and php; for go the recovered
package name is instead "github.com/" followed by the repository
(the `GITHUB_REPOSITORY` value, "org/repo"), the written package name
being ignored by the writer and unrecoverable by the parser. -/
theorem c1_round_trip :
    ParseReleases (UpdateReleasesFile "" "org/repo" roundTripGoRecord)
      = .ok { ReleaseTitle := "v1.2.0", DocVersion := "1.0.0",
              SpeakeasyVersion := "1.20.0", DocLocation := "spec.yaml",
              Languages := [("go",
                { PackageName := "github.com/org/repo", Path := ".",
                  Version := "1.2.0",
                  URL := "https://github.com/org/repo/releases/tag/v1.2.0" })] } ∧
    ParseReleases (UpdateReleasesFile "" "org/repo" roundTripTsRecord)
      = .ok { ReleaseTitle := "v1.2.0", DocVersion := "1.0.0",
              SpeakeasyVersion := "1.20.0", DocLocation := "spec.yaml",
              Languages := [("typescript",
                { PackageName := "my-pkg", Path := "ts", Version := "1.2.0",
                  URL := "https://www.npmjs.com/package/my-pkg/v/1.2.0" })] } ∧
    ParseReleases (UpdateReleasesFile "" "org/repo" roundTripPyRecord)
      = .ok { ReleaseTitle := "v1.2.0", DocVersion := "1.0.0",
              SpeakeasyVersion := "1.20.0", DocLocation := "spec.yaml",
              Languages := [("python",
                { PackageName := "my-pkg", Path := "py", Version := "1.2.0",
                  URL := "https://pypi.org/project/my-pkg/1.2.0" })] } ∧
    ParseReleases (UpdateReleasesFile "" "org/repo" roundTripPhpRecord)
      = .ok { ReleaseTitle := "v1.2.0", DocVersion := "1.0.0",
              SpeakeasyVersion := "1.20.0", DocLocation := "spec.yaml",
              Languages := [("php",
                { PackageName := "org/pkg", Path := "php", Version := "1.2.0",
                  URL := "https://packagist.org/packages/org/pkg#v1.2.0" })] } :=
  ⟨rfl, rfl, rfl, rfl⟩

end SDKGen
